import Mathlib

/-!
# Verification of the multi-backend database access layer

A shallow embedding, in Lean, of the database access layer of the
talk-to-my-data analytics application: the retry policy, the backend
operators (Snowflake, BigQuery, SAP Datasphere, SQL Server in two
variants, and the no-database variant), the SQL Server connection pool,
the operator factory, credential validation, and configuration loading.
Each definition is translated from the corresponding Python function in
`utils/database_helpers.py`, `utils/database_helpers_pytds.py` or
`utils/credentials.py`; theorems settle the specified properties.
-/

set_option maxRecDepth 4096

/-- Python exception values relevant to the database layer.  Constructors
mirror the exception classes raised or caught in the source:
`pytds.OperationalError`, `pytds.InterfaceError`, `pytds.ProgrammingError`
(all subclasses of `pytds.Error`), `RuntimeError`, `ValueError`,
`ImportError`, `KeyError`, `FileNotFoundError`, pydantic
`ValidationError`, `json.JSONDecodeError`, and arbitrary other
exceptions. -/
inductive PyError where
  | operationalError (msg : String)
  | interfaceError (msg : String)
  | programmingError (msg : String)
  | runtimeError (msg : String)
  | valueError (msg : String)
  | importError (msg : String)
  | keyError (msg : String)
  | fileNotFoundError
  | validationError
  | jsonDecodeError
  | otherError (msg : String)
deriving Repr, DecidableEq

/-- The transient error classification of `retry_on_transient_error`:
its default `transient_errors` tuple is
`(pytds.OperationalError, pytds.InterfaceError)` when pytds is
available (`utils/database_helpers.py`, lines 76-78). -/
def isTransient : PyError → Bool
  | .operationalError _ => true
  | .interfaceError _ => true
  | _ => false

/-- Membership in the `pytds.Error` exception hierarchy, the classes
caught by `except (pytds.Error, pytds.OperationalError,
pytds.InterfaceError)` in `SQLServerOperator.execute_query`. -/
def isPytdsError : PyError → Bool
  | .operationalError _ => true
  | .interfaceError _ => true
  | .programmingError _ => true
  | _ => false

/-- One step of the loop body of the wrapper produced by
`retry_on_transient_error` (`utils/database_helpers.py`, lines 89-123).
The wrapped operation is modelled as a function from the attempt index
(0-based) to the outcome of that invocation.  `remaining` is the number
of loop iterations left (`max_attempts - attempt`); `last` is the
`last_exception` variable.  The result pairs the final outcome with the
total number of invocations of the operation. -/
def retryAux (op : Nat → Except PyError α) (attempt : Nat) :
    Nat → Option PyError → Except PyError α × Nat
  | 0, last =>
    (match last with
     | some e => Except.error e
     | none => Except.error (.runtimeError "Unexpected error in retry logic"),
     attempt)
  | remaining + 1, _ =>
    match op attempt with
    | Except.ok v => (Except.ok v, attempt + 1)
    | Except.error e =>
      if isTransient e then
        retryAux op (attempt + 1) remaining (some e)
      else
        (Except.error e, attempt + 1)

/-- The wrapper produced by `retry_on_transient_error(max_attempts, ...)`
applied to an operation: run the loop from attempt 0 with no recorded
exception.  Sleeping and the delay variable do not affect the outcome or
the invocation count and are not modelled. -/
def retry_on_transient_error (maxAttempts : Nat)
    (op : Nat → Except PyError α) : Except PyError α × Nat :=
  retryAux op 0 maxAttempts none

/-! ## Credential sets (`utils/credentials.py`) -/

/-- Python truthiness of an optional string field: `None` and the empty
string are falsy, any other string is truthy. -/
def optTruthy : Option String → Bool
  | none => false
  | some s => !s.isEmpty

/-- Snowflake credentials (`utils/credentials.py`, lines 116-169).
Optional fields are `Option`; the remaining fields are mandatory
strings resolved by the credential source. -/
structure SnowflakeCredentials where
  user : Option String
  password : Option String
  account : String
  database : String
  warehouse : String
  db_schema : String
  role : String
  snowflake_key_path : Option String
deriving Repr, DecidableEq

/-- `SnowflakeCredentials.is_configured` (lines 214-233): all the basic
fields are truthy, and at least one of key-file or password
authentication is present (an `is not None` check, so an empty string
still counts as present). -/
def SnowflakeCredentials.is_configured (c : SnowflakeCredentials) : Bool :=
  (optTruthy c.user && !c.account.isEmpty && !c.warehouse.isEmpty &&
    !c.database.isEmpty && !c.db_schema.isEmpty && !c.role.isEmpty) &&
  (c.snowflake_key_path.isSome || c.password.isSome)

/-- SAP Datasphere credentials (`utils/credentials.py`, lines 236-271). -/
structure SAPDatasphereCredentials where
  host : String
  port : Nat
  user : String
  password : String
  db_schema : String
deriving Repr, DecidableEq

/-- `SAPDatasphereCredentials.is_configured` (lines 273-277):
`bool(host and port and user and password)`. -/
def SAPDatasphereCredentials.is_configured (c : SAPDatasphereCredentials) : Bool :=
  !c.host.isEmpty && c.port != 0 && !c.user.isEmpty && !c.password.isEmpty

/-- SQL Server credentials (`utils/credentials.py`, lines 280-358). -/
structure SQLServerCredentials where
  host : String
  port : Nat
  user : String
  password : String
  database : String
  db_schema : String
  driver : String
  trust_server_certificate : Bool
  encrypt : Bool
  connection_timeout : Nat
deriving Repr, DecidableEq

/-- `SQLServerCredentials.is_configured` (lines 373-386):
`all([host, port, user, password, database, db_schema])`. -/
def SQLServerCredentials.is_configured (c : SQLServerCredentials) : Bool :=
  !c.host.isEmpty && c.port != 0 && !c.user.isEmpty &&
    !c.password.isEmpty && !c.database.isEmpty && !c.db_schema.isEmpty

/-- The character test of `validate_schema_name`: Python
`c.isalnum() or c in ("_", ".")`, modelled over the ASCII alphanumeric
characters. -/
def schemaCharAllowed (c : Char) : Bool :=
  c.isAlphanum || c = '_' || c = '.'

/-- `SQLServerCredentials.validate_schema_name` (`utils/credentials.py`,
lines 360-371): reject the empty string, then reject any character that
is not alphanumeric, an underscore or a dot; otherwise return the value
unchanged. -/
def validate_schema_name (v : String) : Except PyError String :=
  if v.isEmpty then
    .error (.valueError "Schema name cannot be empty")
  else if !(v.toList.all schemaCharAllowed) then
    .error (.valueError
      "Schema name can only contain alphanumeric characters, underscores, and dots")
  else
    .ok v

/-- Pydantic construction of `SQLServerCredentials`: the numeric bound
validators on `port` (ge=1, le=65535) and `connection_timeout` (ge=1,
le=300) and the `validate_schema_name` field validator run during
construction; any validator failure surfaces as a pydantic
`ValidationError`. -/
def mkSQLServerCredentials (host : String) (port : Nat) (user password
    database db_schema driver : String) (trust_server_certificate
    encrypt : Bool) (connection_timeout : Nat) :
    Except PyError SQLServerCredentials :=
  if !(1 ≤ port ∧ port ≤ 65535 : Prop) then .error .validationError
  else if !(1 ≤ connection_timeout ∧ connection_timeout ≤ 300 : Prop) then
    .error .validationError
  else
    match validate_schema_name db_schema with
    | .error _ => .error .validationError
    | .ok s =>
      .ok { host := host, port := port, user := user, password := password,
            database := database, db_schema := s, driver := driver,
            trust_server_certificate := trust_server_certificate,
            encrypt := encrypt, connection_timeout := connection_timeout }

/-- BigQuery credentials (`utils/credentials.py`, lines 71-88): a
service-account key dictionary and an optional schema.  The dictionary
is modelled as an association list. -/
structure GoogleCredentialsBQ where
  service_account_key : List (String × String)
  db_schema : Option String
deriving Repr, DecidableEq

/-! ## Operator construction and the factory
(`utils/database_helpers.py`, `utils/database_helpers_pytds.py`) -/

/-- Observable side effects on database resources, used to state that a
code path opens, probes or closes a connection. -/
inductive DbEffect where
  | connect
  | probeQuery
  | close
deriving Repr, DecidableEq

/-- `SnowflakeOperator.__init__` (`utils/database_helpers.py`, lines
221-229): raise `ValueError` when `is_configured()` fails, otherwise
store the credentials.  The body performs no database effect. -/
def SnowflakeOperator.init (c : SnowflakeCredentials) :
    Except PyError Unit × List DbEffect :=
  (if c.is_configured then .ok ()
   else .error (.valueError "Snowflake credentials not properly configured"),
   [])

/-- `SAPDatasphereOperator.__init__` (lines 614-622): raise `ValueError`
when `is_configured()` fails.  No database effect. -/
def SAPDatasphereOperator.init (c : SAPDatasphereCredentials) :
    Except PyError Unit × List DbEffect :=
  (if c.is_configured then .ok ()
   else .error (.valueError "SAP Data Sphere credentials not properly configured"),
   [])

/-- `SQLServerOperator.__init__` (lines 830-846): raise `ImportError`
when pytds is unavailable, then `ValueError` when `is_configured()`
fails; otherwise initialise the empty connection pool (max size 5).
No database effect. -/
def SQLServerOperator.init (hasPytds : Bool) (c : SQLServerCredentials) :
    Except PyError Unit × List DbEffect :=
  (if !hasPytds then
    .error (.importError "SQL Server support requires python-tds package")
   else if !c.is_configured then
    .error (.valueError "SQL Server credentials not properly configured")
   else .ok (),
   [])

/-- `SQLServerOperatorPytds.__init__`
(`utils/database_helpers_pytds.py`, lines 43-52): store the credentials
and the default timeout.  There is no configuration check and no
database effect; construction always succeeds. -/
def SQLServerOperatorPytds.init (_c : SQLServerCredentials) :
    Except PyError Unit × List DbEffect :=
  (.ok (), [])

/-- `BigQueryOperator.__init__` (`utils/database_helpers.py`, lines
465-473): no configuration check; reads
`credentials.service_account_key["project_id"]`, which raises
`KeyError` when the key dictionary lacks `project_id`.  No database
effect. -/
def BigQueryOperator.init (c : GoogleCredentialsBQ) :
    Except PyError String × List DbEffect :=
  (match c.service_account_key.lookup "project_id" with
   | some pid => .ok pid
   | none => .error (.keyError "project_id"),
   [])

/-- The inline configured-check of the factory for BigQuery
(`get_database_operator`, line 1136):
`credentials.service_account_key and credentials.db_schema`. -/
def bigQueryFactoryConfigured (c : GoogleCredentialsBQ) : Bool :=
  !c.service_account_key.isEmpty && optTruthy c.db_schema

/-- The operator chosen by the factory. -/
inductive OperatorChoice where
  | bigqueryOp
  | snowflakeOp
  | sapOp
  | sqlserverPytdsOp
  | sqlserverInlineOp
  | noDatabaseOp
deriving Repr, DecidableEq

/-- The exception classes caught by the factory branches:
`except (ValidationError, ValueError)`. -/
def caughtByFactory : PyError → Bool
  | .validationError => true
  | .valueError _ => true
  | .jsonDecodeError => true
  | _ => false

/-- `get_database_operator` (`utils/database_helpers.py`, lines
1125-1188).  Credential construction from the environment is passed in
as a resolution outcome per backend; `hasPytdsModule` is whether
importing `database_helpers_pytds` succeeds, `hasPytds` whether pytds
itself imported.  Each branch catches `(ValidationError, ValueError)`
from credential construction (for sqlserver also `ImportError`) and
falls back to the no-database operator; other exceptions propagate. -/
def get_database_operator (dbTag : String)
    (bq : Except PyError GoogleCredentialsBQ)
    (sf : Except PyError SnowflakeCredentials)
    (sap : Except PyError SAPDatasphereCredentials)
    (sql : Except PyError SQLServerCredentials)
    (hasPytdsModule hasPytds : Bool) : Except PyError OperatorChoice :=
  if dbTag = "bigquery" then
    match bq with
    | .error e => if caughtByFactory e then .ok .noDatabaseOp else .error e
    | .ok c =>
      if bigQueryFactoryConfigured c then
        match (BigQueryOperator.init c).1 with
        | .ok _ => .ok .bigqueryOp
        | .error e =>
          if caughtByFactory e then .ok .noDatabaseOp else .error e
      else .ok .noDatabaseOp
  else if dbTag = "snowflake" then
    match sf with
    | .error e => if caughtByFactory e then .ok .noDatabaseOp else .error e
    | .ok c =>
      if c.is_configured then
        match (SnowflakeOperator.init c).1 with
        | .ok _ => .ok .snowflakeOp
        | .error e =>
          if caughtByFactory e then .ok .noDatabaseOp else .error e
      else .ok .noDatabaseOp
  else if dbTag = "sap" then
    match sap with
    | .error e => if caughtByFactory e then .ok .noDatabaseOp else .error e
    | .ok c =>
      if c.is_configured then
        match (SAPDatasphereOperator.init c).1 with
        | .ok _ => .ok .sapOp
        | .error e =>
          if caughtByFactory e then .ok .noDatabaseOp else .error e
      else .ok .noDatabaseOp
  else if dbTag = "sqlserver" then
    match sql with
    | .error e => if caughtByFactory e then .ok .noDatabaseOp else .error e
    | .ok c =>
      if c.is_configured then
        if hasPytdsModule then .ok .sqlserverPytdsOp
        else if !hasPytds then .ok .noDatabaseOp
        else
          match (SQLServerOperator.init hasPytds c).1 with
          | .ok _ => .ok .sqlserverInlineOp
          | .error e =>
            if caughtByFactory e then .ok .noDatabaseOp else .error e
      else .ok .noDatabaseOp
  else .ok .noDatabaseOp

/-! ## Scoped connection acquisition (`create_connection`) -/

/-- `SnowflakeOperator.create_connection` (`utils/database_helpers.py`,
lines 231-259), a generator context manager.  `connect` is the outcome
of assembling the connect parameters (including the key-or-password
selection, which can raise `ValueError` before anything is acquired)
and of `snowflake.connector.connect`; `body` is the outcome of the
with-block body.  The generator has no try/finally around its `yield`:
on a body exception the exception is thrown into the generator at the
yield point and propagates, so `connection.close()` is skipped.  The
result is (outcome, a connection was acquired, it was closed). -/
def SnowflakeOperator.create_connection (c : SnowflakeCredentials)
    (connect : Except PyError Unit) (body : Except PyError α) :
    Except PyError α × Bool × Bool :=
  if !c.is_configured then
    (.error (.valueError "Snowflake credentials not properly configured"),
     false, false)
  else
    match connect with
    | .error e => (.error e, false, false)
    | .ok () =>
      match body with
      | .ok v => (.ok v, true, true)
      | .error e => (.error e, true, false)

/-- `SAPDatasphereOperator.create_connection` (lines 624-644): the
`dbapi.connect` call and the `yield` sit in a try whose `finally` runs
`connection.close()`, so both the normal and the exceptional body exit
close the connection.  When `dbapi.connect` itself raises, the local
`connection` is unbound and the `finally` raises `UnboundLocalError`
with nothing acquired. -/
def SAPDatasphereOperator.create_connection (c : SAPDatasphereCredentials)
    (connect : Except PyError Unit) (body : Except PyError α) :
    Except PyError α × Bool × Bool :=
  if !c.is_configured then
    (.error (.valueError "SAP Data Sphere credentials not properly configured"),
     false, false)
  else
    match connect with
    | .error _ =>
      (.error (.otherError "UnboundLocalError: connection"), false, false)
    | .ok () =>
      match body with
      | .ok v => (.ok v, true, true)
      | .error e => (.error e, true, true)

/-! ## The SQL Server connection pool -/

/-- A pooled SQL Server connection: an identity and whether the
liveness probe `SELECT 1` would currently succeed on it. -/
structure PoolConn where
  id : Nat
  alive : Bool
deriving Repr, DecidableEq

/-- The loop of `_get_connection_from_pool` over the reversed pool list
(`list.pop()` removes from the end): pop entries until one passes the
liveness probe; dead entries are dropped. -/
def popLoop : List PoolConn → Option PoolConn × List PoolConn
  | [] => (none, [])
  | conn :: rest => if conn.alive then (some conn, rest) else popLoop rest

/-- `SQLServerOperator._get_connection_from_pool`
(`utils/database_helpers.py`, lines 848-860): repeatedly pop the last
pooled connection and probe it with `SELECT 1`; return the first live
one, or `None` when the pool is exhausted.  Returns the connection
found and the remaining pool. -/
def SQLServerOperator.getConnectionFromPool (pool : List PoolConn) :
    Option PoolConn × List PoolConn :=
  ((popLoop pool.reverse).1, (popLoop pool.reverse).2.reverse)

/-- `SQLServerOperator._return_connection_to_pool` (lines 862-872):
when the pool holds fewer than `_max_pool_size = 5` connections, probe
the connection with `SELECT 1` and append it on success; a failed probe
or a full pool leaves the pool unchanged.  The effect list records the
database operations performed: the body contains no `close()` call, so
no `close` effect ever occurs. -/
def SQLServerOperator.returnConnectionToPool (pool : List PoolConn)
    (conn : PoolConn) : List PoolConn × List DbEffect :=
  if pool.length < 5 then
    if conn.alive then (pool ++ [conn], [.probeQuery])
    else (pool, [.probeQuery])
  else (pool, [])

/-- `SQLServerOperator.create_connection` (lines 889-909): acquire from
the pool, else create a new connection (`newConn`, the retry-wrapped
`_create_new_connection` outcome); yield it inside a try whose
`finally` returns it to the pool.  `aliveAtExit` is whether the
connection still passes the probe at release time; the result is
(outcome, the pool after exit, the finally release step ran). -/
def SQLServerOperator.create_connection (c : SQLServerCredentials)
    (pool : List PoolConn) (newConn : Except PyError PoolConn)
    (body : Except PyError α) (aliveAtExit : Bool) :
    Except PyError α × List PoolConn × Bool :=
  if !c.is_configured then
    (.error (.valueError "SQL Server credentials not properly configured"),
     pool, false)
  else
    let acq := SQLServerOperator.getConnectionFromPool pool
    match acq.1 with
    | some conn =>
      let rel := SQLServerOperator.returnConnectionToPool acq.2
        { conn with alive := aliveAtExit }
      (body, rel.1, true)
    | none =>
      match newConn with
      | .error e => (.error e, acq.2, false)
      | .ok conn =>
        let rel := SQLServerOperator.returnConnectionToPool acq.2
          { conn with alive := aliveAtExit }
        (body, rel.1, true)

/-! ## Query execution (`execute_query`) -/

/-- The `str(e)` text of an exception, used when building wrapper
messages. -/
def pyMsg : PyError → String
  | .operationalError m => m
  | .interfaceError m => m
  | .programmingError m => m
  | .runtimeError m => m
  | .valueError m => m
  | .importError m => m
  | .keyError m => m
  | .fileNotFoundError => "FileNotFoundError"
  | .validationError => "ValidationError"
  | .jsonDecodeError => "JSONDecodeError"
  | .otherError m => m

/-- Modelled from the spec: `utils/code_execution.py` is absent from
src/, so the `InvalidGeneratedCode` exception class it defines is
modelled from the words of the spec — the QueryError is "wrapped with
the original query text and cause".  It carries a message, the
offending code and the underlying exception; the call sites in
`database_helpers.py` pass these as `code=query, exception=e`, and
fields not passed at a call site stay unset. -/
structure InvalidGeneratedCode where
  message : String
  code : Option String
  exception : Option PyError
deriving Repr, DecidableEq

/-- A backend-native query result: ordered column names and rows. -/
structure QueryResult where
  columns : List String
  rows : List (List (Option String))
deriving Repr, DecidableEq

/-- `SQLServerOperator.execute_query` (`utils/database_helpers.py`,
lines 923-975).  `connect` is the outcome of the pooled
`create_connection` scope entry; `step` is the outcome of the
execute-and-fetch step per invocation, wrapped by
`retry_on_transient_error(max_attempts=2)` as
`_execute_query_with_retry`.  Errors in the `pytds.Error` hierarchy are
wrapped as `InvalidGeneratedCode` with `code=query, exception=e`
("SQL Server error"); any other exception is wrapped with the same
fields ("Query execution failed").  The second component counts the
submissions of the query to the backend. -/
def SQLServerOperator.execute_query (query : String)
    (connect : Except PyError Unit)
    (step : Nat → Except PyError QueryResult) :
    Except InvalidGeneratedCode (List (List (String × Option String))) × Nat :=
  match connect with
  | .error e =>
    (.error { message := "Query execution failed: " ++ pyMsg e,
              code := some query, exception := some e }, 0)
  | .ok () =>
    match retry_on_transient_error 2 step with
    | (.ok r, n) => (.ok (r.rows.map (fun row => r.columns.zip row)), n)
    | (.error e, n) =>
      if isPytdsError e then
        (.error { message := "SQL Server error: " ++ pyMsg e,
                  code := some query, exception := some e }, n)
      else
        (.error { message := "Query execution failed: " ++ pyMsg e,
                  code := some query, exception := some e }, n)

/-- `SQLServerOperatorPytds.execute_query`
(`utils/database_helpers_pytds.py`, lines 109-152).  The same retry
wrapper (`max_attempts=2`) guards the execute-and-fetch step; rows are
returned only when both the cursor description and the row list are
non-empty.  Any exception is wrapped as
`InvalidGeneratedCode("Failed to execute SQL query: " + str(e))`
chained `from e` — the offending query text is logged but not passed to
the exception, so its `code` field stays unset. -/
def SQLServerOperatorPytds.execute_query (query : String)
    (connect : Except PyError Unit)
    (step : Nat → Except PyError QueryResult) :
    Except InvalidGeneratedCode (List (List (String × Option String))) × Nat :=
  match connect with
  | .error e =>
    (.error { message := "Failed to execute SQL query: " ++ pyMsg e,
              code := none, exception := some e }, 0)
  | .ok () =>
    match retry_on_transient_error 2 step with
    | (.ok r, n) =>
      if !r.columns.isEmpty && !r.rows.isEmpty then
        (.ok (r.rows.map (fun row => r.columns.zip row)), n)
      else
        (.ok [], n)
    | (.error e, n) =>
      (.error { message := "Failed to execute SQL query: " ++ pyMsg e,
                code := none, exception := some e }, n)

/-! ## Table discovery (`get_tables`) -/

/-- A row of the information schema of the backend: an object name, its
type (the `TABLE_TYPE` strings `BASE TABLE` and `VIEW`), and the schema
it lives in. -/
structure CatalogRow where
  name : String
  objType : String
  schemaName : String
deriving Repr, DecidableEq

/-- Lexicographic comparison of character lists by code point, the
order a SQL `ORDER BY` imposes on names in this model. -/
def charListLe : List Char → List Char → Bool
  | [], _ => true
  | _ :: _, [] => false
  | a :: as, b :: bs =>
    if a.val.toNat < b.val.toNat then true
    else if b.val.toNat < a.val.toNat then false
    else charListLe as bs

/-- Strict lexicographic comparison of character lists. -/
def charListLt : List Char → List Char → Bool
  | [], [] => false
  | [], _ :: _ => true
  | _ :: _, [] => false
  | a :: as, b :: bs =>
    if a.val.toNat < b.val.toNat then true
    else if b.val.toNat < a.val.toNat then false
    else charListLt as bs

/-- String order used in `ORDER BY` clauses. -/
def strLe (a b : String) : Bool := charListLe a.data b.data

/-- Strict string order. -/
def strLt (a b : String) : Bool := charListLt a.data b.data

/-- The `ORDER BY table_type, table_name` key. -/
def typeThenNameLe (a b : CatalogRow) : Prop :=
  (strLt a.objType b.objType ||
    (a.objType == b.objType && strLe a.name b.name)) = true

instance : DecidableRel typeThenNameLe := fun a b =>
  inferInstanceAs (Decidable (_ = true))

/-- The `ORDER BY table_name` key. -/
def nameLe (a b : CatalogRow) : Prop := strLe a.name b.name = true

instance : DecidableRel nameLe := fun a b =>
  inferInstanceAs (Decidable (_ = true))

instance : IsTotal CatalogRow nameLe := ⟨fun a b => by
  unfold nameLe strLe
  generalize a.name.data = xs
  generalize b.name.data = ys
  induction xs generalizing ys with
  | nil => left; rfl
  | cons x xs ih =>
    cases ys with
    | nil => right; rfl
    | cons y ys =>
      by_cases h1 : x.val.toNat < y.val.toNat
      · left; simp [charListLe, h1]
      · by_cases h2 : y.val.toNat < x.val.toNat
        · right; simp [charListLe, h1, h2]
        · rcases ih ys with h | h
          · left; simp [charListLe, h1, h2, h]
          · right; simp [charListLe, h1, h2, h]⟩

instance : IsTrans CatalogRow nameLe := ⟨fun a b c hab hbc => by
  unfold nameLe strLe at hab hbc ⊢
  revert hab hbc
  generalize a.name.data = xs
  generalize b.name.data = ys
  generalize c.name.data = zs
  intro hab hbc
  induction xs generalizing ys zs with
  | nil => rfl
  | cons x xs ih =>
    cases ys with
    | nil => simp [charListLe] at hab
    | cons y ys =>
      cases zs with
      | nil => simp [charListLe] at hbc
      | cons z zs =>
        by_cases hxy : x.val.toNat < y.val.toNat
        · by_cases hyz : y.val.toNat < z.val.toNat
          · simp [charListLe, Nat.lt_trans hxy hyz]
          · by_cases hzy : z.val.toNat < y.val.toNat
            · simp [charListLe, hyz, hzy] at hbc
            · have hxz : x.val.toNat < z.val.toNat := by omega
              simp [charListLe, hxz]
        · by_cases hyx : y.val.toNat < x.val.toNat
          · simp [charListLe, hxy, hyx] at hab
          · by_cases hyz : y.val.toNat < z.val.toNat
            · have hxz : x.val.toNat < z.val.toNat := by omega
              simp [charListLe, hxz]
            · by_cases hzy : z.val.toNat < y.val.toNat
              · simp [charListLe, hyz, hzy] at hbc
              · have hxz : ¬ x.val.toNat < z.val.toNat := by omega
                have hzx : ¬ z.val.toNat < x.val.toNat := by omega
                simp [charListLe, hxy, hyx] at hab
                simp [charListLe, hyz, hzy] at hbc
                simp [charListLe, hxz, hzx]
                exact ih ys zs hab hbc⟩

/-- `SnowflakeOperator.get_tables` (`utils/database_helpers.py`, lines
311-379): select the names of objects of type `BASE TABLE` or `VIEW`
under the configured schema, `ORDER BY table_type, table_name`; on any
exception (connectivity failure) log and return the empty list.
`ORDER BY` is modelled as a stable sort by the key. -/
def SnowflakeOperator.get_tables (c : SnowflakeCredentials)
    (connect : Except PyError Unit) (catalog : List CatalogRow) :
    List String :=
  match connect with
  | .error _ => []
  | .ok () =>
    ((catalog.filter (fun r =>
        decide (r.schemaName = c.db_schema) &&
        (decide (r.objType = "BASE TABLE") || decide (r.objType = "VIEW")))
      ).insertionSort typeThenNameLe).map CatalogRow.name

/-- `SQLServerOperator.get_tables` (lines 977-1013): select the names
of objects of type `BASE TABLE` or `VIEW` under the configured schema,
`ORDER BY TABLE_NAME` (name only, not type); on any exception return
the empty list. -/
def SQLServerOperator.get_tables (c : SQLServerCredentials)
    (connect : Except PyError Unit) (catalog : List CatalogRow) :
    List String :=
  match connect with
  | .error _ => []
  | .ok () =>
    ((catalog.filter (fun r =>
        decide (r.schemaName = c.db_schema) &&
        (decide (r.objType = "BASE TABLE") || decide (r.objType = "VIEW")))
      ).insertionSort nameLe).map CatalogRow.name

/-- `SQLServerOperatorPytds.list_tables`
(`utils/database_helpers_pytds.py`, lines 181-205), also the body of
its `get_tables`: select names `WHERE TABLE_TYPE = 'BASE TABLE'` only —
views are excluded — `ORDER BY TABLE_NAME`; on any exception return the
empty list. -/
def SQLServerOperatorPytds.list_tables (c : SQLServerCredentials)
    (connect : Except PyError Unit) (catalog : List CatalogRow) :
    List String :=
  match connect with
  | .error _ => []
  | .ok () =>
    ((catalog.filter (fun r =>
        decide (r.objType = "BASE TABLE") &&
        decide (r.schemaName = c.db_schema))
      ).insertionSort nameLe).map CatalogRow.name

/-- The listing the spec asserts for `get_tables`, written from the
words of the spec for comparison with the embeddings: the names of both
base tables and views visible under the configured schema, sorted by
object type then name. -/
def specGetTablesTypeThenName (schema : String) (catalog : List CatalogRow) :
    List String :=
  ((catalog.filter (fun r =>
      decide (r.schemaName = schema) &&
      (decide (r.objType = "BASE TABLE") || decide (r.objType = "VIEW")))
    ).insertionSort typeThenNameLe).map CatalogRow.name

/-! ## Batch data extraction (`get_data`) -/

/-- The data fetched for one table: column names and sampled rows. -/
structure TableData where
  columns : List String
  rows : List (List (Option String))
deriving Repr, DecidableEq

/-- The body of `SQLServerOperator.get_data` (`utils/database_helpers.py`,
lines 1015-1113): under one connection scope, loop over the requested
tables; each table is fetched in its own try/except — a failure is
logged and skipped with `continue`, and a table whose cursor reports no
columns is skipped with `continue`; the loaded dataframes are then
registered one by one and their names returned.  A failure of the
connection scope itself yields the empty list.  `loadStep` is the loop
body for one table; `get_data` returns (returned names, registered
dataset names). -/
def SQLServerOperator.loadStep
    (fetch : String → Except PyError TableData)
    (acc : List String) (t : String) : List String :=
  match fetch t with
  | .error _ => acc
  | .ok d => if d.columns.isEmpty then acc else acc ++ [t]

/-- The tables the inline loop keeps: fetch succeeded and the cursor
reported at least one column. -/
def SQLServerOperator.loadKept
    (fetch : String → Except PyError TableData) (t : String) : Bool :=
  match fetch t with
  | .ok d => !d.columns.isEmpty
  | .error _ => false

def SQLServerOperator.get_data (connect : Except PyError Unit)
    (fetch : String → Except PyError TableData) (tables : List String) :
    List String × List String :=
  match connect with
  | .error _ => ([], [])
  | .ok () =>
    let loaded := tables.foldl (SQLServerOperator.loadStep fetch) []
    (loaded, loaded)

/-- The body of `SQLServerOperatorPytds.get_data`
(`utils/database_helpers_pytds.py`, lines 304-369): loop over the
requested tables; each table runs `get_table_as_dataframe` (one backend
query submission per table), a failure is logged and skipped, an empty
dataframe is skipped with a warning, and a loaded non-empty table is
registered and its name appended.  The second component counts the
backend query submissions (one per requested table).  Through
`execute_query`, a table whose cursor reports no columns or no rows
comes back as an empty dataframe. -/
def SQLServerOperatorPytds.loadStep
    (fetch : String → Except PyError TableData)
    (acc : List String) (t : String) : List String :=
  match fetch t with
  | .error _ => acc
  | .ok d =>
    if d.columns.isEmpty || d.rows.isEmpty then acc else acc ++ [t]

/-- The tables the pytds loop keeps: fetch succeeded and the dataframe
is non-empty (columns and rows both present). -/
def SQLServerOperatorPytds.loadKept
    (fetch : String → Except PyError TableData) (t : String) : Bool :=
  match fetch t with
  | .ok d => !(d.columns.isEmpty || d.rows.isEmpty)
  | .error _ => false

def SQLServerOperatorPytds.get_data
    (fetch : String → Except PyError TableData) (tables : List String) :
    List String × Nat :=
  (tables.foldl (SQLServerOperatorPytds.loadStep fetch) [],
   tables.length)

/-! ## Memoization of the async `get_data`
(`functools.lru_cache` on an `async def`) -/

/-- A Python coroutine object as produced by calling an async function:
its eventual result, and whether it has already been awaited.  CPython
permits awaiting a coroutine object at most once; a second await raises
`RuntimeError("cannot reuse already awaited coroutine")`. -/
structure PyCoroutine where
  value : List String
  awaited : Bool
deriving Repr, DecidableEq

/-- The cache state that `functools.lru_cache(maxsize=8)` attaches to
the async method `get_data` of `SnowflakeOperator` (lines 381-451; the
BigQuery and SAP operators are decorated identically): a map from the
argument key to the cached coroutine object, a count of executions of
the method body (the per-table fetch), and the dataset registrations
performed so far. -/
structure GetDataCacheState where
  cache : List (List String × PyCoroutine)
  fetchCount : Nat
  registered : List String
deriving Repr, DecidableEq

/-- One sequential call-and-await of the lru_cache-wrapped async
`get_data`: on a cache miss the call returns a fresh coroutine, the
cache stores that coroutine object, and the caller awaits it — running
the body once, fetching the tables and registering the datasets; on a
cache hit the cached coroutine object itself is returned, and since a
sequential caller has already awaited it, awaiting it again raises
`RuntimeError`.  `fetch` gives the names the body would successfully
load and register for a requested key. -/
def getDataCachedCall (fetch : List String → List String)
    (st : GetDataCacheState) (key : List String) :
    Except PyError (List String) × GetDataCacheState :=
  match st.cache.lookup key with
  | none =>
    let names := fetch key
    (.ok names,
     { cache := st.cache ++ [(key, { value := names, awaited := true })],
       fetchCount := st.fetchCount + 1,
       registered := st.registered ++ names })
  | some co =>
    if co.awaited then
      (.error (.runtimeError "cannot reuse already awaited coroutine"), st)
    else
      (.ok co.value, st)

/-! ## Configuration loading (`load_app_infra`) -/

/-- The configuration record `{llm, database}` (`utils/schema.py`,
`AppInfra`). -/
structure AppInfra where
  llm : String
  database : String
deriving Repr, DecidableEq

/-- The state of one candidate `app_infra.json` file: absent, present
but not valid JSON, valid JSON that fails `AppInfra` validation, or a
good configuration. -/
inductive FileState where
  | missing
  | badJson
  | badSchema
  | good (llm database : String)
deriving Repr, DecidableEq

/-- Opening and parsing one candidate file:
`AppInfra(**json.load(open(path)))`.  An absent file raises
`FileNotFoundError`; content that is not valid JSON raises
`json.JSONDecodeError` (a subclass of `ValueError`, not of
`ValidationError`); valid JSON with the wrong shape raises a pydantic
`ValidationError`. -/
def tryLoadInfra : FileState → Except PyError AppInfra
  | .missing => .error .fileNotFoundError
  | .badJson => .error .jsonDecodeError
  | .badSchema => .error .validationError
  | .good l d => .ok { llm := l, database := d }

/-- The exception classes caught between candidates in
`load_app_infra`: `except (FileNotFoundError, ValidationError)` —
`JSONDecodeError` is not among them. -/
def caughtByInfraLoader : PyError → Bool
  | .fileNotFoundError => true
  | .validationError => true
  | _ => false

/-- `load_app_infra` (`utils/database_helpers.py`, lines 1191-1212):
try `app_infra.json`, then `frontend/app_infra.json`, then
`app_backend/app_infra.json`; each nested `except (FileNotFoundError,
ValidationError)` moves to the next candidate, and the innermost
handler raises the descriptive `ValueError`.  Exceptions outside that
tuple propagate immediately. -/
def load_app_infra (f1 f2 f3 : FileState) : Except PyError AppInfra :=
  match tryLoadInfra f1 with
  | .ok c => .ok c
  | .error e1 =>
    if caughtByInfraLoader e1 then
      match tryLoadInfra f2 with
      | .ok c => .ok c
      | .error e2 =>
        if caughtByInfraLoader e2 then
          match tryLoadInfra f3 with
          | .ok c => .ok c
          | .error e3 =>
            if caughtByInfraLoader e3 then
              .error (.valueError "Failed to read app_infra.json")
            else .error e3
        else .error e2
    else .error e1

/-! ## Theorems settling the claims -/

/-- CLAIM C1: with `max_attempts = 3`, if every invocation raises a
transient error then the operation is invoked exactly 3 times and the
error finally raised equals the last transient error; if the first
invocation raises a non-transient error, the operation is invoked
exactly once and that error propagates. -/
theorem retry_policy_c1 (op : Nat → Except PyError α)
    (e0 e1 e2 : PyError)
    (h0 : op 0 = .error e0) (h1 : op 1 = .error e1) (h2 : op 2 = .error e2)
    (t0 : isTransient e0 = true) (t1 : isTransient e1 = true)
    (t2 : isTransient e2 = true) :
    retry_on_transient_error 3 op = (.error e2, 3) ∧
    (∀ (op₂ : Nat → Except PyError α) (f : PyError),
      op₂ 0 = .error f → isTransient f = false →
      retry_on_transient_error 3 op₂ = (.error f, 1)) := by
  constructor
  · simp [retry_on_transient_error, retryAux, h0, h1, h2, t0, t1, t2]
  · intro op₂ f hf htf
    simp [retry_on_transient_error, retryAux, hf, htf]

/-- Witness for C1 at a concrete operation: every attempt raises
`OperationalError "net down"`, a transient error; a second operation
raises `ValueError "bad"`, a non-transient error, on its first call. -/
theorem retry_policy_c1_witness :
    retry_on_transient_error 3
      (fun _ => (.error (.operationalError "net down") : Except PyError Nat)) =
      (.error (.operationalError "net down"), 3) ∧
    retry_on_transient_error 3
      (fun _ => (.error (.valueError "bad") : Except PyError Nat)) =
      (.error (.valueError "bad"), 1) := by
  have h := retry_policy_c1
    (fun _ => (.error (.operationalError "net down") : Except PyError Nat))
    (.operationalError "net down") (.operationalError "net down")
    (.operationalError "net down") rfl rfl rfl rfl rfl rfl
  exact ⟨h.1, h.2 (fun _ => (.error (.valueError "bad") : Except PyError Nat))
    (.valueError "bad") rfl rfl⟩

/-- CLAIM C3, counterexample: `SQLServerOperatorPytds` is constructed
directly from a credential set whose `is_configured()` fails (empty
host), yet construction succeeds with no error raised — it does not
raise a configuration error. -/
theorem operator_configcheck_counterexample_c3 :
    SQLServerCredentials.is_configured
      { host := "", port := 1433, user := "u", password := "p",
        database := "d", db_schema := "dbo",
        driver := "ODBC Driver 18 for SQL Server",
        trust_server_certificate := false, encrypt := true,
        connection_timeout := 30 } = false ∧
    SQLServerOperatorPytds.init
      { host := "", port := 1433, user := "u", password := "p",
        database := "d", db_schema := "dbo",
        driver := "ODBC Driver 18 for SQL Server",
        trust_server_certificate := false, encrypt := true,
        connection_timeout := 30 } = (.ok (), []) :=
  ⟨rfl, rfl⟩

/-- CLAIM C3, amended: the Snowflake, SAP Datasphere and inline SQL
Server operators raise a configuration error (`ValueError`) at
construction from a credential set failing `is_configured()`, without
any database effect; the pytds SQL Server operator performs no
configured-check at construction and always succeeds; the BigQuery
operator performs no configured-check either — its construction
succeeds with no error and no database effect whenever the
service-account key dictionary contains `project_id`, even for a
credential set that fails the factory configured-check, and when
`project_id` is absent it raises `KeyError`, not a configuration
error; the factory returns the no-database operator when credential
construction raises a validation error or when the constructed
credentials are not configured. -/
theorem operator_configcheck_amended_c3 :
    (∀ c : SnowflakeCredentials, c.is_configured = false →
      SnowflakeOperator.init c =
        (.error (.valueError "Snowflake credentials not properly configured"),
         [])) ∧
    (∀ c : SAPDatasphereCredentials, c.is_configured = false →
      SAPDatasphereOperator.init c =
        (.error
          (.valueError "SAP Data Sphere credentials not properly configured"),
         [])) ∧
    (∀ c : SQLServerCredentials, c.is_configured = false →
      SQLServerOperator.init true c =
        (.error (.valueError "SQL Server credentials not properly configured"),
         [])) ∧
    (∀ c : SQLServerCredentials, SQLServerOperatorPytds.init c = (.ok (), [])) ∧
    (∀ (c : GoogleCredentialsBQ) (pid : String),
      c.service_account_key.lookup "project_id" = some pid →
      BigQueryOperator.init c = (.ok pid, [])) ∧
    (∀ c : GoogleCredentialsBQ,
      c.service_account_key.lookup "project_id" = none →
      BigQueryOperator.init c = (.error (.keyError "project_id"), [])) ∧
    (∀ (tag : String) (hpm hp : Bool),
      get_database_operator tag (.error .validationError)
        (.error .validationError) (.error .validationError)
        (.error .validationError) hpm hp = .ok .noDatabaseOp) ∧
    (∀ (c : SQLServerCredentials) (bq : Except PyError GoogleCredentialsBQ)
        (sf : Except PyError SnowflakeCredentials)
        (sap : Except PyError SAPDatasphereCredentials) (hpm hp : Bool),
      c.is_configured = false →
      get_database_operator "sqlserver" bq sf sap (.ok c) hpm hp =
        .ok .noDatabaseOp) := by
  refine ⟨?_, ?_, ?_, ?_, ?_, ?_, ?_, ?_⟩
  · intro c h; simp [SnowflakeOperator.init, h]
  · intro c h; simp [SAPDatasphereOperator.init, h]
  · intro c h; simp [SQLServerOperator.init, h]
  · intro c; rfl
  · intro c pid h; simp [BigQueryOperator.init, h]
  · intro c h; simp [BigQueryOperator.init, h]
  · intro tag hpm hp
    simp only [get_database_operator]
    split_ifs <;> simp_all [caughtByFactory]
  · intro c bq sf sap hpm hp h
    simp [get_database_operator, h]

/-- Witness for C3 (amended) at concrete inputs: unconfigured Snowflake
credentials (no user) make construction raise the configuration
`ValueError`; BigQuery credentials that fail the factory
configured-check (no schema) but whose key dictionary holds
`project_id` are constructed with no error, while a key dictionary
without `project_id` raises `KeyError`; and the factory given
validation failures returns the no-database operator. -/
theorem operator_configcheck_amended_c3_witness :
    SnowflakeOperator.init
      { user := none, password := some "p", account := "a", database := "d",
        warehouse := "w", db_schema := "s", role := "r",
        snowflake_key_path := none } =
      (.error (.valueError "Snowflake credentials not properly configured"),
       []) ∧
    bigQueryFactoryConfigured
      { service_account_key := [("project_id", "p")], db_schema := none } =
      false ∧
    BigQueryOperator.init
      { service_account_key := [("project_id", "p")], db_schema := none } =
      (.ok "p", []) ∧
    BigQueryOperator.init
      { service_account_key := [("client_email", "e")], db_schema := some "s" } =
      (.error (.keyError "project_id"), []) ∧
    get_database_operator "snowflake" (.error .validationError)
      (.error .validationError) (.error .validationError)
      (.error .validationError) true true = .ok .noDatabaseOp := by
  have h := operator_configcheck_amended_c3
  refine ⟨h.1 _ rfl, rfl, ?_, ?_, h.2.2.2.2.2.2.1 "snowflake" true true⟩
  · exact h.2.2.2.2.1
      { service_account_key := [("project_id", "p")], db_schema := none }
      "p" rfl
  · exact h.2.2.2.2.2.1
      { service_account_key := [("client_email", "e")], db_schema := some "s" }
      rfl

/-- CLAIM C5, counterexample: on the Snowflake backend, with configured
credentials and a successful connect, an exception raised by the
with-block body leaves the acquired connection unclosed —
`create_connection` has no try/finally around its yield. -/
theorem connection_release_counterexample_c5 :
    SnowflakeOperator.create_connection
      { user := some "u", password := some "p", account := "a",
        database := "d", warehouse := "w", db_schema := "s", role := "r",
        snowflake_key_path := none }
      (.ok ()) (.error (.otherError "boom") : Except PyError Unit) =
      (.error (.otherError "boom"), true, false) := rfl

/-- CLAIM C5, amended: the SAP Datasphere `create_connection` closes the
acquired connection on both the normal and the exceptional exit of the
scope body, and the pooled SQL Server `create_connection` runs its
finally pool-return step on every exit of the scope body; the Snowflake
`create_connection` closes the connection only on normal completion —
an exception raised by the scope body propagates from the yield and
skips the close. -/
theorem connection_release_amended_c5 (α : Type) :
    (∀ (c : SnowflakeCredentials), c.is_configured = true → ∀ (v : α),
      SnowflakeOperator.create_connection c (.ok ()) (.ok v) =
        (.ok v, true, true)) ∧
    (∀ (c : SnowflakeCredentials), c.is_configured = true → ∀ (e : PyError),
      SnowflakeOperator.create_connection c (.ok ())
        (.error e : Except PyError α) = (.error e, true, false)) ∧
    (∀ (c : SAPDatasphereCredentials), c.is_configured = true → ∀ (v : α),
      SAPDatasphereOperator.create_connection c (.ok ()) (.ok v) =
        (.ok v, true, true)) ∧
    (∀ (c : SAPDatasphereCredentials), c.is_configured = true →
      ∀ (e : PyError),
      SAPDatasphereOperator.create_connection c (.ok ())
        (.error e : Except PyError α) = (.error e, true, true)) ∧
    (∀ (c : SQLServerCredentials), c.is_configured = true →
      ∀ (pool : List PoolConn) (nc : PoolConn) (body : Except PyError α)
        (alive : Bool),
      (SQLServerOperator.create_connection c pool (.ok nc) body alive).2.2 =
        true) := by
  refine ⟨?_, ?_, ?_, ?_, ?_⟩
  · intro c hc v; simp [SnowflakeOperator.create_connection, hc]
  · intro c hc e; simp [SnowflakeOperator.create_connection, hc]
  · intro c hc v; simp [SAPDatasphereOperator.create_connection, hc]
  · intro c hc e; simp [SAPDatasphereOperator.create_connection, hc]
  · intro c hc pool nc body alive
    cases h : (SQLServerOperator.getConnectionFromPool pool).1 <;>
      simp [SQLServerOperator.create_connection, hc, h]

/-- Witness for C5 (amended) at concrete inputs: a configured Snowflake
credential set with a normal body exit, and a pooled SQL Server scope
over the empty pool. -/
theorem connection_release_amended_c5_witness :
    SnowflakeOperator.create_connection
      { user := some "u", password := some "p", account := "a",
        database := "d", warehouse := "w", db_schema := "s", role := "r",
        snowflake_key_path := none }
      (.ok ()) (.ok 0 : Except PyError Nat) = (.ok 0, true, true) ∧
    (SQLServerOperator.create_connection
      { host := "h", port := 1433, user := "u", password := "p",
        database := "d", db_schema := "dbo",
        driver := "ODBC Driver 18 for SQL Server",
        trust_server_certificate := false, encrypt := true,
        connection_timeout := 30 }
      [] (.ok { id := 0, alive := true }) (.ok 0 : Except PyError Nat)
      true).2.2 = true := by
  have h := connection_release_amended_c5 Nat
  exact ⟨h.1
    { user := some "u", password := some "p", account := "a",
      database := "d", warehouse := "w", db_schema := "s", role := "r",
      snowflake_key_path := none } rfl 0,
    h.2.2.2.2
      { host := "h", port := 1433, user := "u", password := "p",
        database := "d", db_schema := "dbo",
        driver := "ODBC Driver 18 for SQL Server",
        trust_server_certificate := false, encrypt := true,
        connection_timeout := 30 } rfl [] { id := 0, alive := true }
      (.ok 0) true⟩

/-- The connection found by the pool-popping loop is an element of the
list it searched. -/
theorem popLoop_mem {l : List PoolConn} {c : PoolConn}
    (h : (popLoop l).1 = some c) : c ∈ l := by
  induction l with
  | nil => simp [popLoop] at h
  | cons a rest ih =>
    by_cases ha : a.alive
    · simp [popLoop, ha] at h
      simp [h]
    · simp [popLoop, ha] at h
      exact List.mem_cons_of_mem _ (ih h)

/-- A connection returned by `_get_connection_from_pool` was a member
of the pool. -/
theorem getConnectionFromPool_mem {pool : List PoolConn} {c : PoolConn}
    (h : (SQLServerOperator.getConnectionFromPool pool).1 = some c) :
    c ∈ pool := by
  have := popLoop_mem (l := pool.reverse) (c := c)
  simp [SQLServerOperator.getConnectionFromPool] at h
  exact List.mem_reverse.mp (this h)

/-- CLAIM C6, counterexample: releasing a connection whose liveness
probe fails performs the probe and drops the connection from the pool,
but never closes it — the release path contains no `close` effect,
while the claim states the discarded connection is closed. -/
theorem pool_release_close_counterexample_c6 :
    SQLServerOperator.returnConnectionToPool [] { id := 7, alive := false } =
      ([], [.probeQuery]) ∧
    DbEffect.close ∉
      (SQLServerOperator.returnConnectionToPool []
        { id := 7, alive := false }).2 := by
  refine ⟨rfl, ?_⟩
  decide

/-- CLAIM C6, amended: release checks the size bound first; with space
available it probes the connection and pushes it back only when the
probe succeeds, otherwise it discards the connection without closing it
(no `close` effect occurs on any release path); a released connection
whose probe fails never re-enters the pool, so no subsequent acquire
returns it; and release never grows the pool beyond 5. -/
theorem pool_release_amended_c6 :
    (∀ (pool : List PoolConn) (conn : PoolConn), pool.length ≤ 5 →
      ((SQLServerOperator.returnConnectionToPool pool conn).1).length ≤ 5) ∧
    (∀ (pool : List PoolConn) (conn : PoolConn), conn.alive = false →
      (SQLServerOperator.returnConnectionToPool pool conn).1 = pool) ∧
    (∀ (pool : List PoolConn) (conn : PoolConn),
      DbEffect.close ∉ (SQLServerOperator.returnConnectionToPool pool conn).2) ∧
    (∀ (pool : List PoolConn) (conn c2 : PoolConn), conn.alive = false →
      (∀ p ∈ pool, p.id ≠ conn.id) →
      (SQLServerOperator.getConnectionFromPool
        (SQLServerOperator.returnConnectionToPool pool conn).1).1 = some c2 →
      c2.id ≠ conn.id) := by
  refine ⟨?_, ?_, ?_, ?_⟩
  · intro pool conn h
    by_cases h5 : pool.length < 5
    · by_cases ha : conn.alive <;>
        simp [SQLServerOperator.returnConnectionToPool, h5, ha] <;> omega
    · simp [SQLServerOperator.returnConnectionToPool, h5]
      omega
  · intro pool conn ha
    by_cases h5 : pool.length < 5 <;>
      simp [SQLServerOperator.returnConnectionToPool, h5, ha]
  · intro pool conn
    by_cases h5 : pool.length < 5
    · by_cases ha : conn.alive <;>
        simp [SQLServerOperator.returnConnectionToPool, h5, ha]
    · simp [SQLServerOperator.returnConnectionToPool, h5]
  · intro pool conn c2 ha hid hacq
    have hpool : (SQLServerOperator.returnConnectionToPool pool conn).1 = pool := by
      by_cases h5 : pool.length < 5 <;>
        simp [SQLServerOperator.returnConnectionToPool, h5, ha]
    rw [hpool] at hacq
    exact hid c2 (getConnectionFromPool_mem hacq)

/-- Witness for C6 (amended) at a concrete pool: one live pooled
connection, releasing a distinct dead connection. -/
theorem pool_release_amended_c6_witness :
    ((SQLServerOperator.returnConnectionToPool [{ id := 1, alive := true }]
      { id := 2, alive := false }).1).length ≤ 5 ∧
    (SQLServerOperator.returnConnectionToPool [{ id := 1, alive := true }]
      { id := 2, alive := false }).1 = [{ id := 1, alive := true }] ∧
    DbEffect.close ∉
      (SQLServerOperator.returnConnectionToPool [{ id := 1, alive := true }]
        { id := 2, alive := false }).2 := by
  have h := pool_release_amended_c6
  refine ⟨h.1 _ _ (by decide), h.2.1 _ _ rfl, h.2.2.1 _ _⟩

/-- CLAIM C2: the claim is right and the code is wrong.  Evaluation of
the embedded semantics at the failing input: on a Snowflake-style
operator the first call of the lru_cache-wrapped async `get_data` with
key `["T"]` returns the loaded names and runs the body once, but the
second identical sequential call returns the cached, already-awaited
coroutine, so awaiting it raises `RuntimeError` instead of returning
the name list (the body is indeed not re-run); and the pytds SQL Server
`get_data` has no cache at all — a repeated identical call submits a
new backend query (one per requested table on every call). -/
theorem get_data_memoization_c2 :
    (getDataCachedCall id { cache := [], fetchCount := 0, registered := [] }
      ["T"]).1 = .ok ["T"] ∧
    ((getDataCachedCall id { cache := [], fetchCount := 0, registered := [] }
      ["T"]).2).fetchCount = 1 ∧
    (getDataCachedCall id
      ((getDataCachedCall id { cache := [], fetchCount := 0, registered := [] }
        ["T"]).2) ["T"]).1 =
      .error (.runtimeError "cannot reuse already awaited coroutine") ∧
    ((getDataCachedCall id
      ((getDataCachedCall id { cache := [], fetchCount := 0, registered := [] }
        ["T"]).2) ["T"]).2).fetchCount = 1 ∧
    (SQLServerOperatorPytds.get_data
      (fun _ => .ok { columns := ["C"], rows := [[some "v"]] }) ["T"]).2 = 1 := by
  refine ⟨rfl, rfl, rfl, rfl, rfl⟩

/-- CLAIM C4, counterexample: on the pytds SQL Server operator, a
backend-reported SQL error (a non-transient `ProgrammingError`) raises
`InvalidGeneratedCode` whose `code` field is unset — the offending
query text `SELECT x FROM t` is not carried in the exception, contrary
to the claim.  The query is submitted once (no retry). -/
theorem query_error_counterexample_c4 :
    SQLServerOperatorPytds.execute_query "SELECT x FROM t" (.ok ())
      (fun _ => .error (.programmingError "Invalid column name")) =
      (.error { message := "Failed to execute SQL query: Invalid column name",
                code := none,
                exception := some (.programmingError "Invalid column name") },
       1) ∧
    (none : Option String) ≠ some "SELECT x FROM t" := by
  exact ⟨rfl, by simp⟩

/-- CLAIM C4, amended: a backend-reported SQL error (a pytds error that
is not in the transient set) makes `execute_query` raise
`InvalidGeneratedCode` without re-submitting the query (exactly one
submission): the inline SQL Server operator attaches both the offending
query text and the underlying cause; the pytds operator attaches the
cause (chained exception and its text in the message) but not the query
text. -/
theorem query_error_amended_c4 (query : String)
    (step : Nat → Except PyError QueryResult) (e : PyError)
    (h : step 0 = .error e) (hp : isPytdsError e = true)
    (ht : isTransient e = false) :
    SQLServerOperator.execute_query query (.ok ()) step =
      (.error { message := "SQL Server error: " ++ pyMsg e,
                code := some query, exception := some e }, 1) ∧
    SQLServerOperatorPytds.execute_query query (.ok ()) step =
      (.error { message := "Failed to execute SQL query: " ++ pyMsg e,
                code := none, exception := some e }, 1) := by
  constructor <;>
    simp [SQLServerOperator.execute_query, SQLServerOperatorPytds.execute_query,
      retry_on_transient_error, retryAux, h, ht, hp]

/-- Witness for C4 (amended) at a concrete query and error: a
`ProgrammingError` from the backend is wrapped once, with the query
text and cause attached by the inline operator. -/
theorem query_error_amended_c4_witness :
    isPytdsError (.programmingError "Invalid object name") = true ∧
    SQLServerOperator.execute_query "SELECT 1 FROM missing" (.ok ())
      (fun _ => .error (.programmingError "Invalid object name")) =
      (.error { message := "SQL Server error: Invalid object name",
                code := some "SELECT 1 FROM missing",
                exception := some (.programmingError "Invalid object name") },
       1) := by
  refine ⟨rfl, ?_⟩
  have h := query_error_amended_c4 "SELECT 1 FROM missing"
    (fun _ => .error (.programmingError "Invalid object name"))
    (.programmingError "Invalid object name") rfl rfl rfl
  exact h.1

/-- CLAIM C7, counterexample: a schema holding the view `A` and the
base table `B`.  Sorted by object type then name, the listing would be
`["B", "A"]`; the inline SQL Server `get_tables` returns `["A", "B"]`
(name order only), and the pytds `list_tables` returns `["B"]`,
omitting the view entirely. -/
theorem get_tables_counterexample_c7 :
    SQLServerOperator.get_tables
      { host := "h", port := 1433, user := "u", password := "p",
        database := "d", db_schema := "dbo",
        driver := "ODBC Driver 18 for SQL Server",
        trust_server_certificate := false, encrypt := true,
        connection_timeout := 30 }
      (.ok ())
      [{ name := "A", objType := "VIEW", schemaName := "dbo" },
       { name := "B", objType := "BASE TABLE", schemaName := "dbo" }] =
      ["A", "B"] ∧
    SQLServerOperatorPytds.list_tables
      { host := "h", port := 1433, user := "u", password := "p",
        database := "d", db_schema := "dbo",
        driver := "ODBC Driver 18 for SQL Server",
        trust_server_certificate := false, encrypt := true,
        connection_timeout := 30 }
      (.ok ())
      [{ name := "A", objType := "VIEW", schemaName := "dbo" },
       { name := "B", objType := "BASE TABLE", schemaName := "dbo" }] =
      ["B"] ∧
    specGetTablesTypeThenName "dbo"
      [{ name := "A", objType := "VIEW", schemaName := "dbo" },
       { name := "B", objType := "BASE TABLE", schemaName := "dbo" }] =
      ["B", "A"] ∧
    (["A", "B"] : List String) ≠ ["B", "A"] ∧
    "A" ∉ (["B"] : List String) := by
  refine ⟨by decide, by decide, by decide, by decide, by decide⟩

/-- CLAIM C7, amended: on any connectivity failure every listing
returns the empty sequence; the Snowflake `get_tables` returns base
tables and views of the configured schema sorted by object type then
name (it agrees with the listing written from the words of the spec);
the inline SQL Server `get_tables` returns base tables and views of the
schema sorted by name only; the pytds `list_tables` returns only base
tables of the schema, sorted by name. -/
theorem get_tables_amended_c7 :
    (∀ (c : SnowflakeCredentials) (catalog : List CatalogRow) (e : PyError),
      SnowflakeOperator.get_tables c (.error e) catalog = []) ∧
    (∀ (c : SQLServerCredentials) (catalog : List CatalogRow) (e : PyError),
      SQLServerOperator.get_tables c (.error e) catalog = []) ∧
    (∀ (c : SQLServerCredentials) (catalog : List CatalogRow) (e : PyError),
      SQLServerOperatorPytds.list_tables c (.error e) catalog = []) ∧
    (∀ (c : SnowflakeCredentials) (catalog : List CatalogRow),
      SnowflakeOperator.get_tables c (.ok ()) catalog =
        specGetTablesTypeThenName c.db_schema catalog) ∧
    (∀ (c : SQLServerCredentials) (catalog : List CatalogRow),
      (SQLServerOperator.get_tables c (.ok ()) catalog).Pairwise
        (fun a b => strLe a b = true) ∧
      ∀ x, x ∈ SQLServerOperator.get_tables c (.ok ()) catalog ↔
        ∃ r ∈ catalog, r.name = x ∧ r.schemaName = c.db_schema ∧
          (r.objType = "BASE TABLE" ∨ r.objType = "VIEW")) ∧
    (∀ (c : SQLServerCredentials) (catalog : List CatalogRow),
      (SQLServerOperatorPytds.list_tables c (.ok ()) catalog).Pairwise
        (fun a b => strLe a b = true) ∧
      ∀ x, x ∈ SQLServerOperatorPytds.list_tables c (.ok ()) catalog ↔
        ∃ r ∈ catalog, r.name = x ∧ r.objType = "BASE TABLE" ∧
          r.schemaName = c.db_schema) := by
  refine ⟨fun c catalog e => rfl, fun c catalog e => rfl, fun c catalog e => rfl,
    fun c catalog => rfl, ?_, ?_⟩
  · intro c catalog
    constructor
    · rw [SQLServerOperator.get_tables, List.pairwise_map]
      exact List.sorted_insertionSort nameLe _
    · intro x
      simp only [SQLServerOperator.get_tables, List.mem_map,
        List.mem_insertionSort, List.mem_filter, Bool.and_eq_true,
        Bool.or_eq_true, decide_eq_true_eq]
      constructor
      · rintro ⟨r, ⟨hmem, hschema, htype⟩, hname⟩
        exact ⟨r, hmem, hname, hschema, htype⟩
      · rintro ⟨r, hmem, hname, hschema, htype⟩
        exact ⟨r, ⟨hmem, hschema, htype⟩, hname⟩
  · intro c catalog
    constructor
    · rw [SQLServerOperatorPytds.list_tables, List.pairwise_map]
      exact List.sorted_insertionSort nameLe _
    · intro x
      simp only [SQLServerOperatorPytds.list_tables, List.mem_map,
        List.mem_insertionSort, List.mem_filter, Bool.and_eq_true,
        decide_eq_true_eq]
      constructor
      · rintro ⟨r, ⟨hmem, htype, hschema⟩, hname⟩
        exact ⟨r, hmem, hname, htype, hschema⟩
      · rintro ⟨r, hmem, hname, htype, hschema⟩
        exact ⟨r, ⟨hmem, htype, hschema⟩, hname⟩

/-- The inline per-table loop keeps exactly the tables selected by its
kept-predicate, in request order, regardless of the failures among the
other tables. -/
theorem foldl_loadStep (fetch : String → Except PyError TableData)
    (l acc : List String) :
    l.foldl (SQLServerOperator.loadStep fetch) acc =
      acc ++ l.filter (SQLServerOperator.loadKept fetch) := by
  induction l generalizing acc with
  | nil => simp
  | cons x xs ih =>
    cases hg : fetch x with
    | error e =>
      simp [SQLServerOperator.loadStep, SQLServerOperator.loadKept,
        List.filter_cons, hg, ih]
    | ok d =>
      by_cases h : d.columns.isEmpty <;>
        simp [SQLServerOperator.loadStep, SQLServerOperator.loadKept,
          List.filter_cons, hg, h, ih]

/-- The pytds per-table loop keeps exactly the tables selected by its
kept-predicate, in request order. -/
theorem foldl_loadStep_pytds (fetch : String → Except PyError TableData)
    (l acc : List String) :
    l.foldl (SQLServerOperatorPytds.loadStep fetch) acc =
      acc ++ l.filter (SQLServerOperatorPytds.loadKept fetch) := by
  induction l generalizing acc with
  | nil => simp
  | cons x xs ih =>
    cases hg : fetch x with
    | error e =>
      simp [SQLServerOperatorPytds.loadStep, SQLServerOperatorPytds.loadKept,
        List.filter_cons, hg, ih]
    | ok d =>
      by_cases h : d.columns.isEmpty || d.rows.isEmpty <;>
        simp [SQLServerOperatorPytds.loadStep, SQLServerOperatorPytds.loadKept,
          List.filter_cons, hg, h, ih]

/-- CLAIM C8, counterexample: on the pytds SQL Server operator, a table
`T` whose fetch succeeds but returns zero rows is skipped — its name is
missing from the returned list although it was successfully loaded (the
per-table fetch reported no failure). -/
theorem get_data_batch_counterexample_c8 :
    (SQLServerOperatorPytds.get_data
      (fun _ => .ok { columns := ["C"], rows := [] }) ["T"]).1 = [] ∧
    (fun _ => (.ok { columns := ["C"], rows := [] } :
      Except PyError TableData)) "T" =
      .ok { columns := ["C"], rows := [] } := by
  exact ⟨rfl, rfl⟩

/-- CLAIM C8, amended: a failure while loading one table does not abort
the batch, and the returned list is exactly the filter of the requested
tables by per-table success: for the inline SQL Server operator the
tables whose fetch succeeds with a non-empty column list (and the same
names are registered); for the pytds operator the tables whose fetch
succeeds with both columns and rows non-empty (empty samples are
skipped).  A failure of the connection scope of the inline operator
yields the empty result. -/
theorem get_data_batch_amended_c8 :
    (∀ (fetch : String → Except PyError TableData) (tables : List String)
      (e : PyError),
      SQLServerOperator.get_data (.error e) fetch tables = ([], [])) ∧
    (∀ (fetch : String → Except PyError TableData) (tables : List String),
      SQLServerOperator.get_data (.ok ()) fetch tables =
        (tables.filter (SQLServerOperator.loadKept fetch),
         tables.filter (SQLServerOperator.loadKept fetch))) ∧
    (∀ (fetch : String → Except PyError TableData) (tables : List String),
      (SQLServerOperatorPytds.get_data fetch tables).1 =
        tables.filter (SQLServerOperatorPytds.loadKept fetch)) := by
  refine ⟨fun fetch tables e => rfl, ?_, ?_⟩
  · intro fetch tables
    have h := foldl_loadStep fetch tables []
    rw [List.nil_append] at h
    simp only [SQLServerOperator.get_data]
    rw [h]
  · intro fetch tables
    have h := foldl_loadStep_pytds fetch tables []
    rw [List.nil_append] at h
    simp only [SQLServerOperatorPytds.get_data]
    rw [h]

/-- CLAIM C9, counterexample: the first candidate file exists but is
not valid JSON, and the second candidate is good; `load_app_infra`
raises the JSON parse error (a `ValueError` subclass not caught by
`except (FileNotFoundError, ValidationError)`) without trying the later
candidates, instead of succeeding with the second candidate. -/
theorem load_config_counterexample_c9 :
    load_app_infra .badJson (.good "azure" "snowflake") .missing =
      .error .jsonDecodeError ∧
    (Except.error .jsonDecodeError : Except PyError AppInfra) ≠
      .ok { llm := "azure", database := "snowflake" } := by
  exact ⟨rfl, by simp⟩

/-- CLAIM C9, amended: the three candidate locations are tried in
order; a candidate that is missing or whose JSON fails `AppInfra`
validation falls through to the next; the fatal descriptive
`ValueError` is raised only when all three candidates are missing or
fail validation; but a candidate whose content is not valid JSON raises
the parse error immediately, without trying the later candidates. -/
theorem load_config_amended_c9 :
    (∀ (l d : String) (f2 f3 : FileState),
      load_app_infra (.good l d) f2 f3 = .ok { llm := l, database := d }) ∧
    (∀ (f1 : FileState) (l d : String) (f3 : FileState),
      (f1 = .missing ∨ f1 = .badSchema) →
      load_app_infra f1 (.good l d) f3 = .ok { llm := l, database := d }) ∧
    (∀ (f1 f2 : FileState) (l d : String),
      (f1 = .missing ∨ f1 = .badSchema) → (f2 = .missing ∨ f2 = .badSchema) →
      load_app_infra f1 f2 (.good l d) = .ok { llm := l, database := d }) ∧
    (∀ f1 f2 f3 : FileState,
      (f1 = .missing ∨ f1 = .badSchema) → (f2 = .missing ∨ f2 = .badSchema) →
      (f3 = .missing ∨ f3 = .badSchema) →
      load_app_infra f1 f2 f3 =
        .error (.valueError "Failed to read app_infra.json")) ∧
    (∀ f2 f3 : FileState,
      load_app_infra .badJson f2 f3 = .error .jsonDecodeError) ∧
    (∀ (f1 f3 : FileState), (f1 = .missing ∨ f1 = .badSchema) →
      load_app_infra f1 .badJson f3 = .error .jsonDecodeError) := by
  refine ⟨fun l d f2 f3 => rfl, ?_, ?_, ?_, fun f2 f3 => rfl, ?_⟩
  · rintro f1 l d f3 (rfl | rfl) <;> rfl
  · rintro f1 f2 l d (rfl | rfl) (rfl | rfl) <;> rfl
  · rintro f1 f2 f3 (rfl | rfl) (rfl | rfl) (rfl | rfl) <;> rfl
  · rintro f1 f3 (rfl | rfl) <;> rfl

/-- Witness for C9 (amended) at concrete file states: the third
candidate is used when the first two are missing or invalid, and the
descriptive error appears when all three fail. -/
theorem load_config_amended_c9_witness :
    load_app_infra .missing .badSchema (.good "azure" "snowflake") =
      .ok { llm := "azure", database := "snowflake" } ∧
    load_app_infra .missing .badSchema .missing =
      .error (.valueError "Failed to read app_infra.json") := by
  have h := load_config_amended_c9
  exact ⟨h.2.2.1 .missing .badSchema "azure" "snowflake" (Or.inl rfl)
      (Or.inr rfl),
    h.2.2.2.1 .missing .badSchema .missing (Or.inl rfl) (Or.inr rfl)
      (Or.inl rfl)⟩

/-- `validate_schema_name` succeeds exactly on a non-empty name all of
whose characters are alphanumeric, underscore or dot. -/
theorem validate_schema_name_ok_iff (v : String) :
    (∃ s, validate_schema_name v = .ok s) ↔
      (v.isEmpty = false ∧ v.toList.all schemaCharAllowed = true) := by
  unfold validate_schema_name
  by_cases h1 : v.isEmpty
  · rw [if_pos h1]
    constructor
    · rintro ⟨s, hs⟩; cases hs
    · rintro ⟨hfalse, -⟩; rw [h1] at hfalse; cases hfalse
  · have h1f : v.isEmpty = false := by simpa using h1
    rw [if_neg h1]
    by_cases h2 : v.toList.all schemaCharAllowed
    · rw [if_neg (by rw [h2]; decide)]
      constructor
      · intro _; exact ⟨h1f, h2⟩
      · intro _; exact ⟨v, rfl⟩
    · have h2f : v.toList.all schemaCharAllowed = false := by simpa using h2
      rw [if_pos (by rw [h2f]; decide)]
      constructor
      · rintro ⟨s, hs⟩; cases hs
      · rintro ⟨-, htrue⟩; exact absurd htrue h2

/-- `validate_schema_name` returns the input unchanged on success. -/
theorem validate_schema_name_ok_eq {v s : String}
    (h : validate_schema_name v = .ok s) : s = v := by
  unfold validate_schema_name at h
  split_ifs at h
  exact (Except.ok.inj h).symm

/-- CLAIM C10: constructing SQL Server credentials rejects with a
validation error any schema name that is empty or contains a character
outside the alphanumeric/underscore/dot set; the validator passes the
name through unchanged, so every constructed `SQLServerCredentials`
value has a schema name drawn only from that character set. -/
theorem schema_name_validation_c10 :
    (∀ v : String,
      (∃ s, validate_schema_name v = .ok s) ↔
        (v.isEmpty = false ∧ v.toList.all schemaCharAllowed = true)) ∧
    (∀ v s : String, validate_schema_name v = .ok s → s = v) ∧
    (∀ (host : String) (port : Nat)
      (user password database db_schema driver : String) (tsc enc : Bool)
      (ct : Nat) (c : SQLServerCredentials),
      mkSQLServerCredentials host port user password database db_schema
        driver tsc enc ct = .ok c →
      c.db_schema = db_schema ∧ c.db_schema.isEmpty = false ∧
        c.db_schema.toList.all schemaCharAllowed = true) ∧
    (∀ (host : String) (port : Nat)
      (user password database db_schema driver : String) (tsc enc : Bool)
      (ct : Nat),
      (db_schema.isEmpty = true ∨
        db_schema.toList.all schemaCharAllowed = false) →
      mkSQLServerCredentials host port user password database db_schema
        driver tsc enc ct = .error .validationError) := by
  refine ⟨validate_schema_name_ok_iff, fun v s h => validate_schema_name_ok_eq h,
    ?_, ?_⟩
  · intro host port user password database db_schema driver tsc enc ct c h
    unfold mkSQLServerCredentials at h
    split_ifs at h
    cases hv : validate_schema_name db_schema with
    | error e => rw [hv] at h; simp at h
    | ok s2 =>
      rw [hv] at h
      have hcs : c.db_schema = s2 := by
        have := Except.ok.inj h
        rw [← this]
      have hsv : s2 = db_schema := validate_schema_name_ok_eq hv
      have hok : db_schema.isEmpty = false ∧
          db_schema.toList.all schemaCharAllowed = true :=
        (validate_schema_name_ok_iff db_schema).mp ⟨s2, hv⟩
      rw [hcs, hsv]
      exact ⟨rfl, hok⟩
  · intro host port user password database db_schema driver tsc enc ct h
    unfold mkSQLServerCredentials
    split_ifs
    · rfl
    · rfl
    · cases hv : validate_schema_name db_schema with
      | error e => rfl
      | ok s2 =>
        have hok := (validate_schema_name_ok_iff db_schema).mp ⟨s2, hv⟩
        rcases h with h | h
        · rw [h] at hok; exact absurd hok.1 (by simp)
        · rw [h] at hok; exact absurd hok.2 (by simp)

/-- Witness for C10 at concrete schema names: `dbo` is accepted, while
`My Schema` (containing a space) is rejected with a validation error at
credential construction. -/
theorem schema_name_validation_c10_witness :
    (∃ s, validate_schema_name "dbo" = .ok s) ∧
    mkSQLServerCredentials "h" 1433 "u" "p" "d" "My Schema" "drv" false true
      30 = .error .validationError := by
  have h := schema_name_validation_c10
  have hok : "dbo".isEmpty = false ∧
      "dbo".toList.all schemaCharAllowed = true := by decide
  have hbad : "My Schema".isEmpty = true ∨
      "My Schema".toList.all schemaCharAllowed = false := by decide
  exact ⟨(h.1 "dbo").mpr hok,
    h.2.2.2 "h" 1433 "u" "p" "d" "My Schema" "drv" false true 30 hbad⟩
